import Mathlib

/-!
Shallow embedding of `src/lib/many_to_many.py`: an in-memory many-to-many
domain model (Author, Book, join entity Contract) with process-wide
registries, identity-based deduplication and per-field validation.

Modelling conventions:
* Python object identity is modelled by a per-instance `id : Nat` drawn from
  a single fresh counter in the `State`; `is` / `id(...)` comparisons become
  equality of these ids.
* The three class-level registries `Author.all`, `Book.all`, `Contract.all`
  are the lists in `State`; construction appends to them.
* Python runtime values supplied to constructors/setters are `PyVal`;
  `isinstance(v, int)` is true for Python `bool`s, which is reflected by
  `pyIsInt`, and a `bool` used in arithmetic contributes `1`/`0`, reflected
  by `pyIntVal`.
* `raise ValueError(...)` / `raise TypeError(...)` become an
  `Except PyError` result; when construction fails the state is returned
  unchanged, because the Python code raises before appending to a registry.
* Python `str.strip()` is modelled by `pyStrip`, which drops leading and
  trailing whitespace characters from the string's character list.
-/

namespace ManyToMany

/-- A Python runtime value, as far as this module's validation inspects it. -/
inductive PyVal where
  | str (s : String)
  | int (n : Int)
  | bool (b : Bool)
  | authorRef (id : Nat)
  | bookRef (id : Nat)
  | pyNone
deriving DecidableEq, Repr

/-- The two error kinds the module raises. -/
inductive PyError where
  | typeError (msg : String)
  | valueError (msg : String)
deriving DecidableEq, Repr

/-- Whether an error is a `TypeError`. -/
def PyError.isTypeError : PyError → Bool
  | .typeError _ => true
  | .valueError _ => false

/-- Whether an error is a `ValueError`. -/
def PyError.isValueError : PyError → Bool
  | .typeError _ => false
  | .valueError _ => true

/-- Python `isinstance(v, str)`. -/
def pyIsStr : PyVal → Bool
  | .str _ => true
  | _ => false

/-- Python `isinstance(v, int)`; true for `bool`, a subclass of `int`. -/
def pyIsInt : PyVal → Bool
  | .int _ => true
  | .bool _ => true
  | _ => false

/-- Numeric value of a Python `int`-kind value (`True == 1`, `False == 0`). -/
def pyIntVal : PyVal → Int
  | .int n => n
  | .bool b => if b then 1 else 0
  | _ => 0

/-- A whitespace character in the sense of Python `str.strip()` (restricted
to the ASCII whitespace characters). -/
def isPySpace (c : Char) : Bool :=
  c == ' ' || c == '\t' || c == '\n' || c == '\x0d' || c == '\x0b' || c == '\x0c'

/-- Python `s.strip()`: the string with leading and trailing whitespace
removed. -/
def pyStrip (s : String) : String :=
  ⟨((s.data.dropWhile isPySpace).reverse.dropWhile isPySpace).reverse⟩

/-- An `Author` instance: fresh identity plus the stored (trimmed) name. -/
structure Author where
  id : Nat
  name : String
deriving DecidableEq, Repr

/-- A `Book` instance: fresh identity plus the stored (trimmed) title. -/
structure Book where
  id : Nat
  title : String
deriving DecidableEq, Repr

/-- A `Contract` instance: identity, references to its author and book by
identity, the date string, and the royalties value (a Python `bool` is
stored by its numeric value, which is all later reads observe). -/
structure Contract where
  id : Nat
  author : Nat
  book : Nat
  date : String
  royalties : Int
deriving DecidableEq, Repr

/-- The process-wide state: the three registries plus the identity counter. -/
structure State where
  authors : List Author
  books : List Book
  contracts : List Contract
  nextId : Nat
deriving DecidableEq, Repr

/-- The state before any entity has been constructed. -/
def initState : State := ⟨[], [], [], 0⟩

/-- `a` is a registered Author identity in `st`. -/
def State.registeredAuthor (st : State) (a : Nat) : Prop :=
  a ∈ st.authors.map Author.id

/-- `b` is a registered Book identity in `st`. -/
def State.registeredBook (st : State) (b : Nat) : Prop :=
  b ∈ st.books.map Book.id

instance (st : State) (a : Nat) : Decidable (st.registeredAuthor a) := by
  unfold State.registeredAuthor; infer_instance

instance (st : State) (b : Nat) : Decidable (st.registeredBook b) := by
  unfold State.registeredBook; infer_instance

/-- `Author.__init__`: `name` must be a string whose strip is non-empty
(both failures raise `ValueError`); stores the stripped name and appends
to `Author.all`. -/
def Author.init (st : State) (name : PyVal) : Except PyError Author × State :=
  match name with
  | .str s =>
      if pyStrip s = "" then
        (.error (.valueError "name must be a non-empty string"), st)
      else
        let a : Author := ⟨st.nextId, pyStrip s⟩
        (.ok a, { st with authors := st.authors ++ [a], nextId := st.nextId + 1 })
  | _ => (.error (.valueError "name must be a non-empty string"), st)

/-- `Book.__init__`: same shape as `Author.__init__` with `title`. -/
def Book.init (st : State) (title : PyVal) : Except PyError Book × State :=
  match title with
  | .str s =>
      if pyStrip s = "" then
        (.error (.valueError "title must be a non-empty string"), st)
      else
        let b : Book := ⟨st.nextId, pyStrip s⟩
        (.ok b, { st with books := st.books ++ [b], nextId := st.nextId + 1 })
  | _ => (.error (.valueError "title must be a non-empty string"), st)

/-- The `author` property setter's validation: `isinstance(value, Author)`. -/
def Contract.validate_author (v : PyVal) : Except PyError Nat :=
  match v with
  | .authorRef i => .ok i
  | _ => .error (.typeError "author must be an instance of Author")

/-- The `book` property setter's validation: `isinstance(value, Book)`. -/
def Contract.validate_book (v : PyVal) : Except PyError Nat :=
  match v with
  | .bookRef i => .ok i
  | _ => .error (.typeError "book must be an instance of Book")

/-- The `date` property setter's validation: any string is accepted (the
stricter `YYYY-MM-DD` check is commented out in the source). -/
def Contract.validate_date (v : PyVal) : Except PyError String :=
  match v with
  | .str s => .ok s
  | _ => .error (.typeError "date must be a string")

/-- The `royalties` property setter's validation: `isinstance(value, int)`
(so `bool` passes), then non-negativity of the numeric value. -/
def Contract.validate_royalties (v : PyVal) : Except PyError Int :=
  if !pyIsInt v then .error (.typeError "royalties must be an integer")
  else if pyIntVal v < 0 then .error (.valueError "royalties must be non-negative")
  else .ok (pyIntVal v)

/-- `Contract.__init__`: runs the four setters in order (author, book, date,
royalties); on the first failure it raises and the registries are untouched;
on success it appends the new contract to `Contract.all`. -/
def Contract.init (st : State) (author book date royalties : PyVal) :
    Except PyError Contract × State :=
  match Contract.validate_author author with
  | .error e => (.error e, st)
  | .ok a =>
    match Contract.validate_book book with
    | .error e => (.error e, st)
    | .ok b =>
      match Contract.validate_date date with
      | .error e => (.error e, st)
      | .ok d =>
        match Contract.validate_royalties royalties with
        | .error e => (.error e, st)
        | .ok r =>
          let c : Contract := ⟨st.nextId, a, b, d, r⟩
          (.ok c, { st with contracts := st.contracts ++ [c], nextId := st.nextId + 1 })

/-- Post-construction reassignment `c.author = v`: re-runs the setter's
validation, then mutates the contract in place (visible through the
registry). -/
def Contract.set_author (st : State) (cid : Nat) (v : PyVal) :
    Except PyError Unit × State :=
  match Contract.validate_author v with
  | .error e => (.error e, st)
  | .ok a =>
      let upd := st.contracts.map (fun c => if c.id == cid then { c with author := a } else c)
      (.ok (), { st with contracts := upd })

/-- Post-construction reassignment `c.book = v`. -/
def Contract.set_book (st : State) (cid : Nat) (v : PyVal) :
    Except PyError Unit × State :=
  match Contract.validate_book v with
  | .error e => (.error e, st)
  | .ok b =>
      let upd := st.contracts.map (fun c => if c.id == cid then { c with book := b } else c)
      (.ok (), { st with contracts := upd })

/-- Post-construction reassignment `c.date = v`. -/
def Contract.set_date (st : State) (cid : Nat) (v : PyVal) :
    Except PyError Unit × State :=
  match Contract.validate_date v with
  | .error e => (.error e, st)
  | .ok d =>
      let upd := st.contracts.map (fun c => if c.id == cid then { c with date := d } else c)
      (.ok (), { st with contracts := upd })

/-- Post-construction reassignment `c.royalties = v`. -/
def Contract.set_royalties (st : State) (cid : Nat) (v : PyVal) :
    Except PyError Unit × State :=
  match Contract.validate_royalties v with
  | .error e => (.error e, st)
  | .ok r =>
      let upd := st.contracts.map (fun c => if c.id == cid then { c with royalties := r } else c)
      (.ok (), { st with contracts := upd })

/-- `Author.contracts`: the registered contracts whose `author is self`,
in registration order. -/
def Author.contractsOf (st : State) (a : Nat) : List Contract :=
  st.contracts.filter (fun c => c.author == a)

/-- `Book.contracts`: the registered contracts whose `book is self`. -/
def Book.contractsOf (st : State) (b : Nat) : List Contract :=
  st.contracts.filter (fun c => c.book == b)

/-- The `seen`-set loop of `Author.books` / `Book.authors`: keep the first
occurrence of each identity, skipping identities already in `seen`. -/
def dedupFirstSeen (seen : List Nat) : List Nat → List Nat
  | [] => []
  | x :: xs =>
      if x ∈ seen then dedupFirstSeen seen xs
      else x :: dedupFirstSeen (x :: seen) xs

/-- `Author.books`: distinct books reached through `contracts()`, first-seen
order, distinctness by identity. -/
def Author.booksOf (st : State) (a : Nat) : List Nat :=
  dedupFirstSeen [] ((Author.contractsOf st a).map Contract.book)

/-- `Book.authors`: distinct authors reached through `contracts()`. -/
def Book.authorsOf (st : State) (b : Nat) : List Nat :=
  dedupFirstSeen [] ((Book.contractsOf st b).map Contract.author)

/-- `Author.sign_contract`: delegates to Contract construction with
`author=self`. -/
def Author.sign_contract (st : State) (a : Nat) (book date royalties : PyVal) :
    Except PyError Contract × State :=
  Contract.init st (.authorRef a) book date royalties

/-- `Author.total_royalties`: `sum(c.royalties for c in self.contracts())`,
a left fold starting at 0. -/
def Author.total_royalties (st : State) (a : Nat) : Int :=
  (Author.contractsOf st a).foldl (fun acc c => acc + c.royalties) 0

/-- `Contract.contracts_by_date`: all registered contracts whose `date`
equals the given string, in registration order. -/
def Contract.contracts_by_date (st : State) (d : String) : List Contract :=
  st.contracts.filter (fun c => c.date == d)

/-- Stated from the spec's words: the ordered sequence of distinct elements
of `l`, preserving first-seen order — each element appears once, at the
position of its first occurrence, realised by keeping the head and removing
its later duplicates before recursing. -/
def specFirstSeen : List Nat → List Nat
  | [] => []
  | x :: xs => x :: specFirstSeen (xs.filter (fun y => !(y == x)))
termination_by l => l.length
decreasing_by
  simp only [List.length_cons]
  exact Nat.lt_succ_of_le (List.length_filter_le _ _)

/-- Whether a construction result is a `TypeError`. -/
def errorKindIsType {α : Type} : Except PyError α → Bool
  | .error (.typeError _) => true
  | _ => false

/-- The states reachable from the empty registries by the module's
operations: constructions and post-construction field reassignments. -/
inductive Reachable : State → Prop where
  | init : Reachable initState
  | authorStep (st : State) (v : PyVal) :
      Reachable st → Reachable (Author.init st v).2
  | bookStep (st : State) (v : PyVal) :
      Reachable st → Reachable (Book.init st v).2
  | contractStep (st : State) (a b d r : PyVal) :
      Reachable st → Reachable (Contract.init st a b d r).2
  | setAuthorStep (st : State) (cid : Nat) (v : PyVal) :
      Reachable st → Reachable (Contract.set_author st cid v).2
  | setBookStep (st : State) (cid : Nat) (v : PyVal) :
      Reachable st → Reachable (Contract.set_book st cid v).2
  | setDateStep (st : State) (cid : Nat) (v : PyVal) :
      Reachable st → Reachable (Contract.set_date st cid v).2
  | setRoyaltiesStep (st : State) (cid : Nat) (v : PyVal) :
      Reachable st → Reachable (Contract.set_royalties st cid v).2

/-- A concrete run: one author, `Author("Jane Doe")`, identity 0. -/
def exSt1 : State := (Author.init initState (.str "Jane Doe")).2

/-- The run continued: `Book("Dune")`, identity 1. -/
def exSt2 : State := (Book.init exSt1 (.str "Dune")).2

/-- The run continued: a first contract signed between them, identity 2. -/
def exSt3 : State :=
  (Author.sign_contract exSt2 0 (.bookRef 1) (.str "2024-01-01") (.int 100)).2

/-- The run continued: a second contract between the same pair, identity 3. -/
def exSt4 : State :=
  (Author.sign_contract exSt3 0 (.bookRef 1) (.str "2024-01-01") (.int 100)).2

theorem mem_dedupFirstSeen (x : Nat) (seen l : List Nat) :
    x ∈ dedupFirstSeen seen l ↔ x ∈ l ∧ x ∉ seen := by
  induction l generalizing seen with
  | nil => simp [dedupFirstSeen]
  | cons y ys ih =>
    by_cases h : y ∈ seen
    · rw [dedupFirstSeen, if_pos h, ih]
      constructor
      · rintro ⟨hx, hs⟩
        exact ⟨List.mem_cons_of_mem _ hx, hs⟩
      · rintro ⟨hx, hs⟩
        rcases List.mem_cons.mp hx with rfl | hx
        · exact absurd h hs
        · exact ⟨hx, hs⟩
    · rw [dedupFirstSeen, if_neg h]
      simp only [List.mem_cons, ih]
      constructor
      · rintro (rfl | ⟨hx, hs⟩)
        · exact ⟨Or.inl rfl, h⟩
        · exact ⟨Or.inr hx, fun hmem => hs (Or.inr hmem)⟩
      · rintro ⟨rfl | hx, hs⟩
        · exact Or.inl rfl
        · by_cases hxy : x = y
          · exact Or.inl hxy
          · exact Or.inr ⟨hx, by simp [hxy, hs]⟩

theorem nodup_dedupFirstSeen (seen l : List Nat) :
    (dedupFirstSeen seen l).Nodup := by
  induction l generalizing seen with
  | nil => simp [dedupFirstSeen]
  | cons y ys ih =>
    by_cases h : y ∈ seen
    · rw [dedupFirstSeen, if_pos h]; exact ih seen
    · rw [dedupFirstSeen, if_neg h]
      refine List.nodup_cons.mpr ⟨fun hmem => ?_, ih (y :: seen)⟩
      exact ((mem_dedupFirstSeen y (y :: seen) ys).mp hmem).2 (List.mem_cons_self y seen)

theorem sublist_dedupFirstSeen (seen l : List Nat) :
    List.Sublist (dedupFirstSeen seen l) l := by
  induction l generalizing seen with
  | nil => simp [dedupFirstSeen]
  | cons y ys ih =>
    by_cases h : y ∈ seen
    · rw [dedupFirstSeen, if_pos h]; exact (ih seen).cons y
    · rw [dedupFirstSeen, if_neg h]; exact (ih (y :: seen)).cons₂ y

theorem specFirstSeen_cons (x : Nat) (xs : List Nat) :
    specFirstSeen (x :: xs) = x :: specFirstSeen (xs.filter (fun y => !(y == x))) := by
  simp [specFirstSeen]

theorem dedupFirstSeen_eq_specFirstSeen (l : List Nat) (seen : List Nat) :
    dedupFirstSeen seen l = specFirstSeen (l.filter (fun y => decide (y ∉ seen))) := by
  induction l generalizing seen with
  | nil => simp [dedupFirstSeen, specFirstSeen]
  | cons y ys ih =>
    rw [List.filter_cons]
    by_cases h : y ∈ seen
    · rw [dedupFirstSeen, if_pos h, ih seen]
      simp [h]
    · rw [dedupFirstSeen, if_neg h]
      have hc : (decide (y ∉ seen)) = true := by simp [h]
      rw [if_pos hc, specFirstSeen_cons, ih (y :: seen), List.filter_filter]
      congr 2
      apply List.filter_congr
      intro z _
      by_cases hz : z = y
      · simp [hz, List.mem_cons]
      · by_cases hzs : z ∈ seen <;> simp [List.mem_cons, hz, hzs]

theorem dedupFirstSeen_nil_spec (l : List Nat) :
    dedupFirstSeen [] l = specFirstSeen l := by
  rw [dedupFirstSeen_eq_specFirstSeen]
  congr 1
  induction l with
  | nil => rfl
  | cons x xs ih => simp [List.filter_cons, ih]

theorem validate_royalties_int (n : Int) (hn : 0 ≤ n) :
    Contract.validate_royalties (.int n) = .ok n := by
  simp [Contract.validate_royalties, pyIsInt, pyIntVal, hn.not_lt]

theorem validate_royalties_ok_nonneg {v : PyVal} {r : Int}
    (h : Contract.validate_royalties v = .ok r) : 0 ≤ r := by
  unfold Contract.validate_royalties at h
  split at h
  · exact absurd h (by simp)
  · split at h
    · exact absurd h (by simp)
    · rename_i hpos
      injection h with h'
      omega

theorem sign_contract_ok (st : State) (a b : Nat) (dd : String) (rv : PyVal) (r : Int)
    (hr : Contract.validate_royalties rv = .ok r) :
    Author.sign_contract st a (.bookRef b) (.str dd) rv
      = (.ok ⟨st.nextId, a, b, dd, r⟩,
         { st with contracts := st.contracts ++ [⟨st.nextId, a, b, dd, r⟩],
                   nextId := st.nextId + 1 }) := by
  simp [Author.sign_contract, Contract.init, Contract.validate_author,
    Contract.validate_book, Contract.validate_date, hr]

theorem authorInit_contracts (st : State) (v : PyVal) :
    (Author.init st v).2.contracts = st.contracts := by
  unfold Author.init
  cases v with
  | str s => by_cases hs : pyStrip s = "" <;> simp [hs]
  | int n => rfl
  | bool b => rfl
  | authorRef i => rfl
  | bookRef i => rfl
  | pyNone => rfl

theorem bookInit_contracts (st : State) (v : PyVal) :
    (Book.init st v).2.contracts = st.contracts := by
  unfold Book.init
  cases v with
  | str s => by_cases hs : pyStrip s = "" <;> simp [hs]
  | int n => rfl
  | bool b => rfl
  | authorRef i => rfl
  | bookRef i => rfl
  | pyNone => rfl

theorem total_royalties_snoc (st st' : State) (a : Nat) (c : Contract)
    (h : st'.contracts = st.contracts ++ [c]) (hc : c.author = a) :
    Author.total_royalties st' a = Author.total_royalties st a + c.royalties := by
  unfold Author.total_royalties Author.contractsOf
  rw [h]
  simp [List.filter_append, hc]

/-- C1: for a registered Author `a` and registered Book `b`, a successful
`a.sign_contract(b, d, r)` with a string date and non-negative integer
royalties returns a Contract whose author is `a` and whose book is `b`,
after which `b ∈ a.books()` and `a ∈ b.authors()`, membership decided by
identity. -/
theorem C1_sign_contract_links (st : State) (a b : Nat) (d : String) (n : Int)
    (ha : st.registeredAuthor a) (hb : st.registeredBook b) (hn : 0 ≤ n) :
    (Author.sign_contract st a (.bookRef b) (.str d) (.int n)).1
        = .ok ⟨st.nextId, a, b, d, n⟩
      ∧ b ∈ Author.booksOf (Author.sign_contract st a (.bookRef b) (.str d) (.int n)).2 a
      ∧ a ∈ Book.authorsOf (Author.sign_contract st a (.bookRef b) (.str d) (.int n)).2 b := by
  have heq := sign_contract_ok st a b d (.int n) n (validate_royalties_int n hn)
  refine ⟨by rw [heq], ?_, ?_⟩
  · rw [heq]
    unfold Author.booksOf Author.contractsOf
    rw [mem_dedupFirstSeen]
    refine ⟨?_, by simp⟩
    simp [List.filter_append]
  · rw [heq]
    unfold Book.authorsOf Book.contractsOf
    rw [mem_dedupFirstSeen]
    refine ⟨?_, by simp⟩
    simp [List.filter_append]

/-- Witness for C1 at a concrete registered author and book. -/
theorem C1_witness :
    exSt2.registeredAuthor 0 ∧ exSt2.registeredBook 1 ∧ (0 : Int) ≤ 100
      ∧ ((Author.sign_contract exSt2 0 (.bookRef 1) (.str "2024-01-01") (.int 100)).1
            = .ok ⟨exSt2.nextId, 0, 1, "2024-01-01", 100⟩
         ∧ 1 ∈ Author.booksOf
             (Author.sign_contract exSt2 0 (.bookRef 1) (.str "2024-01-01") (.int 100)).2 0
         ∧ 0 ∈ Book.authorsOf
             (Author.sign_contract exSt2 0 (.bookRef 1) (.str "2024-01-01") (.int 100)).2 1) :=
  ⟨by decide, by decide, by decide,
   C1_sign_contract_links exSt2 0 1 "2024-01-01" 100 (by decide) (by decide) (by decide)⟩

/-- C2: `books()` is the first-seen deduplication by identity of the books
reached through `contracts()` (equal to the spec-side `specFirstSeen`,
duplicate-free, and a subsequence of the reached books), and symmetrically
for `authors()`; in the concrete run with two contracts between the same
author and book, `a.books()` and `b.authors()` have length 1 while
`a.contracts()` has length 2. -/
theorem C2_books_distinct_first_seen (st : State) (a b : Nat) :
    Author.booksOf st a = specFirstSeen ((Author.contractsOf st a).map Contract.book)
  ∧ (Author.booksOf st a).Nodup
  ∧ List.Sublist (Author.booksOf st a) ((Author.contractsOf st a).map Contract.book)
  ∧ Book.authorsOf st b = specFirstSeen ((Book.contractsOf st b).map Contract.author)
  ∧ (Book.authorsOf st b).Nodup
  ∧ List.Sublist (Book.authorsOf st b) ((Book.contractsOf st b).map Contract.author)
  ∧ (Author.booksOf exSt4 0).length = 1
  ∧ (Book.authorsOf exSt4 1).length = 1
  ∧ (Author.contractsOf exSt4 0).length = 2 :=
  ⟨dedupFirstSeen_nil_spec _, nodup_dedupFirstSeen _ _, sublist_dedupFirstSeen _ _,
   dedupFirstSeen_nil_spec _, nodup_dedupFirstSeen _ _, sublist_dedupFirstSeen _ _,
   by decide, by decide, by decide⟩

/-- C3: `total_royalties()` equals the sum of the `royalties` field over
exactly the contracts returned by `contracts()`, and is 0 for an author
with no contracts. -/
theorem C3_total_royalties_sum (st : State) (a : Nat) :
    Author.total_royalties st a = ((Author.contractsOf st a).map Contract.royalties).sum
  ∧ (Author.contractsOf st a = [] → Author.total_royalties st a = 0) := by
  constructor
  · unfold Author.total_royalties
    rw [List.sum_eq_foldl, List.foldl_map]
  · intro h
    unfold Author.total_royalties
    rw [h]
    rfl

/-- Witness for C3: an author with no contracts has total 0, and the
concrete two-contract author totals 200. -/
theorem C3_witness :
    Author.total_royalties exSt2 0 = 0
  ∧ Author.total_royalties exSt4 0
      = ((Author.contractsOf exSt4 0).map Contract.royalties).sum :=
  ⟨(C3_total_royalties_sum exSt2 0).2 (by decide), (C3_total_royalties_sum exSt4 0).1⟩

/-- C4: `contracts_by_date(d)` is exactly the registered contracts whose
`date` equals `d` (string equality), in registration order (a subsequence
of the registry), and empty when no registered contract has date `d`. -/
theorem C4_contracts_by_date_filter (st : State) (d : String) :
    (∀ c : Contract, c ∈ Contract.contracts_by_date st d ↔ c ∈ st.contracts ∧ c.date = d)
  ∧ List.Sublist (Contract.contracts_by_date st d) st.contracts
  ∧ ((∀ c ∈ st.contracts, c.date ≠ d) → Contract.contracts_by_date st d = []) := by
  refine ⟨?_, List.filter_sublist _, ?_⟩
  · intro c
    unfold Contract.contracts_by_date
    rw [List.mem_filter]
    simp
  · intro h
    unfold Contract.contracts_by_date
    rw [List.filter_eq_nil_iff]
    intro c hc
    simp [h c hc]

/-- Witness for C4: a date with no matches yields the empty sequence, and a
contract of the concrete run is listed under its own date. -/
theorem C4_witness :
    Contract.contracts_by_date exSt4 "1999-12-31" = []
  ∧ (⟨2, 0, 1, "2024-01-01", 100⟩ : Contract)
      ∈ Contract.contracts_by_date exSt4 "2024-01-01" :=
  ⟨(C4_contracts_by_date_filter exSt4 "1999-12-31").2.2 (by decide),
   ((C4_contracts_by_date_filter exSt4 "2024-01-01").1 _).mpr (by decide)⟩

/-- C5: a failed construction of an Author, Book, or Contract leaves the
whole state (all three registries) unchanged: nothing is registered unless
construction completes. -/
theorem C5_failed_construction_atomic (st : State) (v av bv dv rv : PyVal)
    (e₁ e₂ e₃ : PyError) :
    ((Author.init st v).1 = .error e₁ → (Author.init st v).2 = st)
  ∧ ((Book.init st v).1 = .error e₂ → (Book.init st v).2 = st)
  ∧ ((Contract.init st av bv dv rv).1 = .error e₃ → (Contract.init st av bv dv rv).2 = st) := by
  refine ⟨?_, ?_, ?_⟩
  · intro h
    unfold Author.init at h ⊢
    cases v with
    | str s =>
        by_cases hs : pyStrip s = ""
        · simp [hs]
        · simp [hs] at h
    | int n => rfl
    | bool b => rfl
    | authorRef i => rfl
    | bookRef i => rfl
    | pyNone => rfl
  · intro h
    unfold Book.init at h ⊢
    cases v with
    | str s =>
        by_cases hs : pyStrip s = ""
        · simp [hs]
        · simp [hs] at h
    | int n => rfl
    | bool b => rfl
    | authorRef i => rfl
    | bookRef i => rfl
    | pyNone => rfl
  · intro h
    unfold Contract.init at h ⊢
    cases hA : Contract.validate_author av with
    | error e => simp [hA]
    | ok a =>
      simp only [hA] at h ⊢
      cases hB : Contract.validate_book bv with
      | error e => simp [hB]
      | ok b =>
        simp only [hB] at h ⊢
        cases hD : Contract.validate_date dv with
        | error e => simp [hD]
        | ok d =>
          simp only [hD] at h ⊢
          cases hR : Contract.validate_royalties rv with
          | error e => simp [hR]
          | ok r =>
            simp only [hR] at h
            exact absurd h (by simp)

/-- Witness for C5: an all-whitespace author name and a negative royalty
both fail and leave the state exactly as it was. -/
theorem C5_witness :
    (Author.init initState (.str "   ")).2 = initState
  ∧ (Contract.init exSt2 (.authorRef 0) (.bookRef 1) (.str "d") (.int (-1))).2 = exSt2 :=
  ⟨(C5_failed_construction_atomic initState (.str "   ") .pyNone .pyNone .pyNone .pyNone
      (.valueError "name must be a non-empty string")
      (.valueError "title must be a non-empty string")
      (.typeError "author must be an instance of Author")).1 rfl,
   (C5_failed_construction_atomic exSt2 .pyNone (.authorRef 0) (.bookRef 1) (.str "d")
      (.int (-1))
      (.valueError "name must be a non-empty string")
      (.valueError "title must be a non-empty string")
      (.valueError "royalties must be non-negative")).2.2 rfl⟩

theorem contractInit_preserves_roy (st : State) (a b d r : PyVal)
    (h : ∀ c ∈ st.contracts, 0 ≤ c.royalties) :
    ∀ c ∈ (Contract.init st a b d r).2.contracts, 0 ≤ c.royalties := by
  unfold Contract.init
  cases hA : Contract.validate_author a with
  | error e => simpa using h
  | ok av =>
    simp only [hA]
    cases hB : Contract.validate_book b with
    | error e => simpa using h
    | ok bv =>
      simp only [hB]
      cases hD : Contract.validate_date d with
      | error e => simpa using h
      | ok dv =>
        simp only [hD]
        cases hR : Contract.validate_royalties r with
        | error e => simpa using h
        | ok rv =>
          simp only [hR]
          intro c hc
          rcases List.mem_append.mp hc with hc | hc
          · exact h c hc
          · rcases List.mem_singleton.mp hc with rfl
            exact validate_royalties_ok_nonneg hR

theorem setAuthor_preserves_roy (st : State) (cid : Nat) (v : PyVal)
    (h : ∀ c ∈ st.contracts, 0 ≤ c.royalties) :
    ∀ c ∈ (Contract.set_author st cid v).2.contracts, 0 ≤ c.royalties := by
  unfold Contract.set_author
  cases hA : Contract.validate_author v with
  | error e => simpa using h
  | ok av =>
    simp only [hA]
    intro c hc
    rcases List.mem_map.mp hc with ⟨c0, hc0, rfl⟩
    have h0 := h c0 hc0
    split
    · exact h0
    · exact h0

theorem setBook_preserves_roy (st : State) (cid : Nat) (v : PyVal)
    (h : ∀ c ∈ st.contracts, 0 ≤ c.royalties) :
    ∀ c ∈ (Contract.set_book st cid v).2.contracts, 0 ≤ c.royalties := by
  unfold Contract.set_book
  cases hB : Contract.validate_book v with
  | error e => simpa using h
  | ok bv =>
    simp only [hB]
    intro c hc
    rcases List.mem_map.mp hc with ⟨c0, hc0, rfl⟩
    have h0 := h c0 hc0
    split
    · exact h0
    · exact h0

theorem setDate_preserves_roy (st : State) (cid : Nat) (v : PyVal)
    (h : ∀ c ∈ st.contracts, 0 ≤ c.royalties) :
    ∀ c ∈ (Contract.set_date st cid v).2.contracts, 0 ≤ c.royalties := by
  unfold Contract.set_date
  cases hD : Contract.validate_date v with
  | error e => simpa using h
  | ok dv =>
    simp only [hD]
    intro c hc
    rcases List.mem_map.mp hc with ⟨c0, hc0, rfl⟩
    have h0 := h c0 hc0
    split
    · exact h0
    · exact h0

theorem setRoyalties_preserves_roy (st : State) (cid : Nat) (v : PyVal)
    (h : ∀ c ∈ st.contracts, 0 ≤ c.royalties) :
    ∀ c ∈ (Contract.set_royalties st cid v).2.contracts, 0 ≤ c.royalties := by
  unfold Contract.set_royalties
  cases hR : Contract.validate_royalties v with
  | error e => simpa using h
  | ok rv =>
    simp only [hR]
    intro c hc
    rcases List.mem_map.mp hc with ⟨c0, hc0, rfl⟩
    have h0 := h c0 hc0
    split
    · exact validate_royalties_ok_nonneg hR
    · exact h0

/-- C6: every contract in any reachable state has non-negative royalties;
constructing with a negative or non-integer royalty fails, and reassigning
`royalties` re-runs the same validation, so no operation sequence can make
a registered contract's royalties negative. -/
theorem C6_royalties_invariant :
    (∀ st : State, Reachable st → ∀ c ∈ st.contracts, 0 ≤ c.royalties)
  ∧ (∀ (s : State) (a b : Nat) (dd : String) (n : Int), n < 0 →
       (Contract.init s (.authorRef a) (.bookRef b) (.str dd) (.int n)).1
         = .error (.valueError "royalties must be non-negative"))
  ∧ (∀ (s : State) (a b : Nat) (dd : String) (rv : PyVal), pyIsInt rv = false →
       (Contract.init s (.authorRef a) (.bookRef b) (.str dd) rv).1
         = .error (.typeError "royalties must be an integer"))
  ∧ (∀ (s : State) (cid : Nat) (n : Int), n < 0 →
       (Contract.set_royalties s cid (.int n)).1
         = .error (.valueError "royalties must be non-negative"))
  ∧ (∀ (s : State) (cid : Nat) (rv : PyVal), pyIsInt rv = false →
       (Contract.set_royalties s cid rv).1
         = .error (.typeError "royalties must be an integer")) := by
  refine ⟨?_, ?_, ?_, ?_, ?_⟩
  · intro st h
    induction h with
    | init => intro c hc; cases hc
    | authorStep st v _ ih => rw [authorInit_contracts]; exact ih
    | bookStep st v _ ih => rw [bookInit_contracts]; exact ih
    | contractStep st a b d r _ ih => exact contractInit_preserves_roy st a b d r ih
    | setAuthorStep st cid v _ ih => exact setAuthor_preserves_roy st cid v ih
    | setBookStep st cid v _ ih => exact setBook_preserves_roy st cid v ih
    | setDateStep st cid v _ ih => exact setDate_preserves_roy st cid v ih
    | setRoyaltiesStep st cid v _ ih => exact setRoyalties_preserves_roy st cid v ih
  · intro s a b dd n hn
    simp [Contract.init, Contract.validate_author, Contract.validate_book,
      Contract.validate_date, Contract.validate_royalties, pyIsInt, pyIntVal, hn]
  · intro s a b dd rv hrv
    simp [Contract.init, Contract.validate_author, Contract.validate_book,
      Contract.validate_date, Contract.validate_royalties, hrv]
  · intro s cid n hn
    simp [Contract.set_royalties, Contract.validate_royalties, pyIsInt, pyIntVal, hn]
  · intro s cid rv hrv
    simp [Contract.set_royalties, Contract.validate_royalties, hrv]

/-- Witness for C6: the concrete two-contract state is reachable and all
its contracts have non-negative royalties; a negative royalty is rejected
at construction and at reassignment. -/
theorem C6_witness :
    (∀ c ∈ exSt4.contracts, 0 ≤ c.royalties)
  ∧ (Contract.init exSt2 (.authorRef 0) (.bookRef 1) (.str "2024-01-01") (.int (-5))).1
      = .error (.valueError "royalties must be non-negative")
  ∧ (Contract.set_royalties exSt4 2 (.int (-5))).1
      = .error (.valueError "royalties must be non-negative") := by
  have h1 : Reachable exSt1 := Reachable.authorStep initState (.str "Jane Doe") Reachable.init
  have h2 : Reachable exSt2 := Reachable.bookStep exSt1 (.str "Dune") h1
  have h3 : Reachable exSt3 :=
    Reachable.contractStep exSt2 (.authorRef 0) (.bookRef 1) (.str "2024-01-01") (.int 100) h2
  have h4 : Reachable exSt4 :=
    Reachable.contractStep exSt3 (.authorRef 0) (.bookRef 1) (.str "2024-01-01") (.int 100) h3
  exact ⟨C6_royalties_invariant.1 exSt4 h4,
    C6_royalties_invariant.2.1 exSt2 0 1 "2024-01-01" (-5) (by decide),
    C6_royalties_invariant.2.2.2.1 exSt4 2 (-5) (by decide)⟩

/-- C7 counterexample: `Author(123)` does not raise a type-kind error — the
source's `Author.__init__` folds the `isinstance` check and the emptiness
check into one `ValueError`, so a non-string name raises a value-kind
error. -/
theorem C7_counterexample :
    errorKindIsType (Author.init initState (PyVal.int 123)).1 = false
  ∧ (Author.init initState (PyVal.int 123)).1
      = Except.error (PyError.valueError "name must be a non-empty string") :=
  ⟨rfl, rfl⟩

/-- C7 amended: on Contract fields, a wrong-kind value (non-Author author,
non-Book book, non-string date, non-integer royalties) raises a type error,
an empty or whitespace-only name/title and a negative royalty raise value
errors — but a non-string Author name or Book title raises a value-kind
error, not a type error. -/
theorem C7_amended (st : State) (v : PyVal) (s : String) (a b : Nat)
    (dd : String) (n : Int) :
    (pyIsStr v = false →
      (Author.init st v).1 = .error (.valueError "name must be a non-empty string"))
  ∧ (pyIsStr v = false →
      (Book.init st v).1 = .error (.valueError "title must be a non-empty string"))
  ∧ (pyStrip s = "" →
      (Author.init st (.str s)).1 = .error (.valueError "name must be a non-empty string"))
  ∧ (pyStrip s = "" →
      (Book.init st (.str s)).1 = .error (.valueError "title must be a non-empty string"))
  ∧ ((∀ i, v ≠ .authorRef i) →
      (Contract.init st v (.bookRef b) (.str dd) (.int n)).1
        = .error (.typeError "author must be an instance of Author"))
  ∧ ((∀ i, v ≠ .bookRef i) →
      (Contract.init st (.authorRef a) v (.str dd) (.int n)).1
        = .error (.typeError "book must be an instance of Book"))
  ∧ (pyIsStr v = false →
      (Contract.init st (.authorRef a) (.bookRef b) v (.int n)).1
        = .error (.typeError "date must be a string"))
  ∧ (pyIsInt v = false →
      (Contract.init st (.authorRef a) (.bookRef b) (.str dd) v).1
        = .error (.typeError "royalties must be an integer"))
  ∧ (n < 0 →
      (Contract.init st (.authorRef a) (.bookRef b) (.str dd) (.int n)).1
        = .error (.valueError "royalties must be non-negative")) := by
  refine ⟨?_, ?_, ?_, ?_, ?_, ?_, ?_, ?_, ?_⟩
  · intro hv
    cases v <;> simp_all [pyIsStr, Author.init]
  · intro hv
    cases v <;> simp_all [pyIsStr, Book.init]
  · intro hs
    simp [Author.init, hs]
  · intro hs
    simp [Book.init, hs]
  · intro hv
    have : Contract.validate_author v = .error (.typeError "author must be an instance of Author") := by
      cases v <;> simp_all [Contract.validate_author]
    simp [Contract.init, this]
  · intro hv
    have : Contract.validate_book v = .error (.typeError "book must be an instance of Book") := by
      cases v <;> simp_all [Contract.validate_book]
    simp [Contract.init, Contract.validate_author, this]
  · intro hv
    have : Contract.validate_date v = .error (.typeError "date must be a string") := by
      cases v <;> simp_all [pyIsStr, Contract.validate_date]
    simp [Contract.init, Contract.validate_author, Contract.validate_book, this]
  · intro hv
    simp [Contract.init, Contract.validate_author, Contract.validate_book,
      Contract.validate_date, Contract.validate_royalties, hv]
  · intro hn
    simp [Contract.init, Contract.validate_author, Contract.validate_book,
      Contract.validate_date, Contract.validate_royalties, pyIsInt, pyIntVal, hn]

/-- Witness for C7: the amended behavior at concrete inputs — non-string
name gives a value error, non-Author author and non-integer royalties give
type errors, negative royalties a value error. -/
theorem C7_witness :
    (Author.init initState (.int 123)).1
        = .error (.valueError "name must be a non-empty string")
  ∧ (Contract.init exSt2 (.int 7) (.bookRef 1) (.str "d") (.int 1)).1
        = .error (.typeError "author must be an instance of Author")
  ∧ (Contract.init exSt2 (.authorRef 0) (.bookRef 1) (.str "d") (.str "x")).1
        = .error (.typeError "royalties must be an integer")
  ∧ (Contract.init exSt2 (.authorRef 0) (.bookRef 1) (.str "d") (.int (-3))).1
        = .error (.valueError "royalties must be non-negative") :=
  ⟨(C7_amended initState (.int 123) "" 0 0 "d" 0).1 rfl,
   (C7_amended exSt2 (.int 7) "" 0 1 "d" 1).2.2.2.2.1 (fun i h => by cases h),
   (C7_amended exSt2 (.str "x") "" 0 1 "d" 0).2.2.2.2.2.2.2.1 rfl,
   (C7_amended exSt2 .pyNone "" 0 1 "d" (-3)).2.2.2.2.2.2.2.2 (by decide)⟩

/-- C8: for a string whose stripped form is non-empty, `Author(n)` succeeds
and stores exactly `n.strip()` as the name; a non-string or
whitespace-only/empty name fails; and the same holds for `Book` with
`title`. -/
theorem C8_stores_stripped (st : State) (s : String) (v : PyVal) :
    (pyStrip s ≠ "" → (Author.init st (.str s)).1 = .ok ⟨st.nextId, pyStrip s⟩)
  ∧ (pyStrip s = "" → (Author.init st (.str s)).1.isOk = false)
  ∧ (pyIsStr v = false → (Author.init st v).1.isOk = false)
  ∧ (pyStrip s ≠ "" → (Book.init st (.str s)).1 = .ok ⟨st.nextId, pyStrip s⟩)
  ∧ (pyStrip s = "" → (Book.init st (.str s)).1.isOk = false)
  ∧ (pyIsStr v = false → (Book.init st v).1.isOk = false) := by
  refine ⟨?_, ?_, ?_, ?_, ?_, ?_⟩
  · intro hs
    simp [Author.init, hs]
  · intro hs
    simp [Author.init, hs, Except.isOk, Except.toBool]
  · intro hv
    cases v <;> simp_all [pyIsStr, Author.init, Except.isOk, Except.toBool]
  · intro hs
    simp [Book.init, hs]
  · intro hs
    simp [Book.init, hs, Except.isOk, Except.toBool]
  · intro hv
    cases v <;> simp_all [pyIsStr, Book.init, Except.isOk, Except.toBool]

/-- Witness for C8 at concrete names with surrounding whitespace. -/
theorem C8_witness :
    (Author.init initState (.str " Jane Doe ")).1 = .ok ⟨initState.nextId, "Jane Doe"⟩
  ∧ (Book.init initState (.str "\t Dune \n")).1 = .ok ⟨initState.nextId, "Dune"⟩
  ∧ (Author.init initState (.str " \t ")).1.isOk = false :=
  ⟨by rw [(C8_stores_stripped initState " Jane Doe " .pyNone).1 (by decide)]; rfl,
   by rw [(C8_stores_stripped initState "\t Dune \n" .pyNone).2.2.2.1 (by decide)]; rfl,
   (C8_stores_stripped initState " \t " .pyNone).2.1 (by decide)⟩

/-- C9: the `date` field accepts every string without format validation —
construction with registered author/book, any string date and non-negative
integer royalties succeeds regardless of the date's content; a non-string
date raises a type error; the same holds on reassignment of `date`. -/
theorem C9_date_lenient (st : State) (a b : Nat) (dd : String) (n : Int)
    (v : PyVal) (cid : Nat)
    (ha : st.registeredAuthor a) (hb : st.registeredBook b) (hn : 0 ≤ n) :
    (Contract.init st (.authorRef a) (.bookRef b) (.str dd) (.int n)).1
        = .ok ⟨st.nextId, a, b, dd, n⟩
  ∧ (pyIsStr v = false →
      (Contract.init st (.authorRef a) (.bookRef b) v (.int n)).1
        = .error (.typeError "date must be a string"))
  ∧ (Contract.set_date st cid (.str dd)).1 = .ok ()
  ∧ (pyIsStr v = false →
      (Contract.set_date st cid v).1 = .error (.typeError "date must be a string")) := by
  refine ⟨?_, ?_, ?_, ?_⟩
  · simp [Contract.init, Contract.validate_author, Contract.validate_book,
      Contract.validate_date, validate_royalties_int n hn]
  · intro hv
    have : Contract.validate_date v = .error (.typeError "date must be a string") := by
      cases v <;> simp_all [pyIsStr, Contract.validate_date]
    simp [Contract.init, Contract.validate_author, Contract.validate_book, this]
  · simp [Contract.set_date, Contract.validate_date]
  · intro hv
    have : Contract.validate_date v = .error (.typeError "date must be a string") := by
      cases v <;> simp_all [pyIsStr, Contract.validate_date]
    simp [Contract.set_date, this]

/-- Witness for C9: a date that is not in `YYYY-MM-DD` format is accepted,
and an integer date is rejected with a type error. -/
theorem C9_witness :
    (Contract.init exSt2 (.authorRef 0) (.bookRef 1) (.str "not a date at all") (.int 5)).1
        = .ok ⟨exSt2.nextId, 0, 1, "not a date at all", 5⟩
  ∧ (Contract.init exSt2 (.authorRef 0) (.bookRef 1) (.int 20240101) (.int 5)).1
        = .error (.typeError "date must be a string") :=
  ⟨(C9_date_lenient exSt2 0 1 "not a date at all" 5 (.int 20240101) 2
      (by decide) (by decide) (by decide)).1,
   (C9_date_lenient exSt2 0 1 "not a date at all" 5 (.int 20240101) 2
      (by decide) (by decide) (by decide)).2.1 rfl⟩

/-- C10: a Python bool passes the royalties integer-kind check, so
`Contract(a, b, d, True)` and `Contract(a, b, d, False)` succeed, storing
the numeric values 1 and 0 which contribute exactly that much to
`a.total_royalties()`. -/
theorem C10_bool_royalties (st : State) (a b : Nat) (dd : String)
    (ha : st.registeredAuthor a) (hb : st.registeredBook b) :
    pyIsInt (.bool true) = true
  ∧ (Contract.init st (.authorRef a) (.bookRef b) (.str dd) (.bool true)).1
        = .ok ⟨st.nextId, a, b, dd, 1⟩
  ∧ (Contract.init st (.authorRef a) (.bookRef b) (.str dd) (.bool false)).1
        = .ok ⟨st.nextId, a, b, dd, 0⟩
  ∧ Author.total_royalties
        (Author.sign_contract st a (.bookRef b) (.str dd) (.bool true)).2 a
      = Author.total_royalties st a + 1
  ∧ Author.total_royalties
        (Author.sign_contract st a (.bookRef b) (.str dd) (.bool false)).2 a
      = Author.total_royalties st a + 0 := by
  have htrue : Contract.validate_royalties (.bool true) = .ok 1 := rfl
  have hfalse : Contract.validate_royalties (.bool false) = .ok 0 := rfl
  have heqT := sign_contract_ok st a b dd (.bool true) 1 htrue
  have heqF := sign_contract_ok st a b dd (.bool false) 0 hfalse
  refine ⟨rfl, ?_, ?_, ?_, ?_⟩
  · have := congrArg Prod.fst heqT
    simpa [Author.sign_contract] using this
  · have := congrArg Prod.fst heqF
    simpa [Author.sign_contract] using this
  · rw [heqT]
    exact total_royalties_snoc st _ a ⟨st.nextId, a, b, dd, 1⟩ rfl rfl
  · rw [heqF]
    exact total_royalties_snoc st _ a ⟨st.nextId, a, b, dd, 0⟩ rfl rfl

/-- Witness for C10: `Contract(a, b, d, True)` succeeds concretely and
raises the author's total from 200 to 201. -/
theorem C10_witness :
    (Contract.init exSt4 (.authorRef 0) (.bookRef 1) (.str "2024-02-02") (.bool true)).1
        = .ok ⟨exSt4.nextId, 0, 1, "2024-02-02", 1⟩
  ∧ Author.total_royalties
        (Author.sign_contract exSt4 0 (.bookRef 1) (.str "2024-02-02") (.bool true)).2 0
      = Author.total_royalties exSt4 0 + 1 :=
  ⟨(C10_bool_royalties exSt4 0 1 "2024-02-02" (by decide) (by decide)).2.1,
   (C10_bool_royalties exSt4 0 1 "2024-02-02" (by decide) (by decide)).2.2.2.1⟩

end ManyToMany
